import Mathlib

/-!
Shallow embedding of `src/script.js` (SafeStreet-LA client script).

The script installs three event handlers after page load:
* a panel switcher on the `.action-btn` buttons,
* a submit handler on the report form (`#form-report`),
* a submit handler on the recent-hazards form (`#form-recent`).

Each handler is modelled as a pure function from its inputs (captured DOM
state, the outcome of the `fetch` call) to the DOM state it leaves behind.
-/

/-- The three named panels of the `sections` object in the script
(`section-report`, `section-recent`, `section-predict`). -/
inductive Panel
  | report
  | recent
  | predict
deriving DecidableEq, Repr, Fintype

/-- The key under which each panel is stored in the `sections` object,
compared against the clicked button's `data-section` attribute. -/
def panelName : Panel → String
  | .report => "report"
  | .recent => "recent"
  | .predict => "predict"

/-- DOM state touched by the panel switcher: which of the `n` action buttons
carry the `active` class, and which panels carry the `active` class. -/
structure SwitcherState (n : Nat) where
  btnActive : Fin n → Bool
  panelActive : Panel → Bool

/-- The click handler attached to each action button: it removes `active`
from every action button, adds it to the clicked one, and for each entry of
`sections` adds `active` when the key equals the button's `data-section`
attribute and removes it otherwise. `dataSection` gives each button's
`data-section` attribute. -/
def actionButtonClick (n : Nat) (dataSection : Fin n → String)
    (s : SwitcherState n) (clicked : Fin n) : SwitcherState n :=
  let target := dataSection clicked
  { btnActive := fun b => decide (b = clicked)
    panelActive := fun p => panelName p == target }

/-- `panelName` is injective (the three keys are distinct strings). -/
theorem panelName_inj : ∀ p q : Panel, panelName p = panelName q → p = q := by
  decide

/-- Substring containment: `t` occurs contiguously inside `s`. -/
def strContains (s t : String) : Prop :=
  ∃ pre suf : List Char, s.data = pre ++ t.data ++ suf

theorem strContains_refl (s : String) : strContains s s :=
  ⟨[], [], by simp⟩

theorem strContains_left {s t : String} (u : String) (h : strContains s t) :
    strContains (u ++ s) t := by
  obtain ⟨pre, suf, hps⟩ := h
  refine ⟨u.data ++ pre, suf, ?_⟩
  show u.data ++ s.data = _
  rw [hps]
  simp [List.append_assoc]

theorem strContains_right {s t : String} (u : String) (h : strContains s t) :
    strContains (s ++ u) t := by
  obtain ⟨pre, suf, hps⟩ := h
  refine ⟨pre, suf ++ u.data, ?_⟩
  show s.data ++ u.data = _
  rw [hps]
  simp [List.append_assoc]

/-! ## Shared modelling of JavaScript primitives -/

/-- JavaScript `String.prototype.trim`: strip whitespace from both ends. -/
def jsTrim (s : String) : String :=
  ⟨((s.data.dropWhile Char.isWhitespace).reverse.dropWhile Char.isWhitespace).reverse⟩

/-- JavaScript `a || b` where `a` is a string field that may be absent
(`undefined`): both `undefined` and the empty string are falsy, so the
default is used for either. -/
def jsOrString : Option String → String → String
  | none, d => d
  | some s, d => if s = "" then d else s

/-- A JSON value, as far as this script builds or consumes one. -/
inductive JsValue
  | str (s : String)
  | bool (b : Bool)
  | obj (fields : List (String × JsValue))

/-- The keys of a JSON object (empty for non-objects). -/
def JsValue.objKeys : JsValue → List String
  | .obj fields => fields.map Prod.fst
  | _ => []

/-- Look up a key in a JSON object. -/
def JsValue.objGet : JsValue → String → Option JsValue
  | .obj fields, k => (fields.find? (fun f => f.fst = k)).map Prod.snd
  | _, _ => none

/-- The outcome of a `fetch` call, as the handlers observe it: either the
promise rejects (transport failure), or it resolves with an HTTP status
(`ok`) and a body that `response.json()` either parses to `some α` or
fails to parse (`none`, making `response.json()` reject). -/
inductive FetchOutcome (α : Type)
  | reject
  | resolve (ok : Bool) (body : Option α)

/-! ## Report form (`#form-report` submit handler) -/

/-- The report form's field values as read from the DOM at submit time:
five text/select values and the `#temporary` checkbox state. -/
structure ReportForm where
  location_name : String
  hazard_type : String
  accessibility : String
  user_type : String
  temporary : Bool
  description : String
deriving DecidableEq, Repr

/-- The `payload` object built by the submit handler from the current field
values (`.value.trim()` on `location_name`, `hazard_type`, `description`;
raw `.value` on `accessibility` and `user_type`; `.checked` on
`temporary`). -/
def buildPayload (f : ReportForm) : JsValue :=
  .obj [
    ("location_name", .str (jsTrim f.location_name)),
    ("hazard_type", .str (jsTrim f.hazard_type)),
    ("accessibility", .str f.accessibility),
    ("user_type", .str f.user_type),
    ("temporary", .bool f.temporary),
    ("description", .str (jsTrim f.description))
  ]

/-- The response body of `POST /api/report`, as far as the handler reads it:
only the optional `error` field is consulted. -/
structure ReportResponse where
  error : Option String
deriving DecidableEq, Repr

/-- The DOM state the report submit handler leaves behind: the
`#submit-status` text and class list, the form's field values, and the
request it sent (endpoint and JSON body), if any. -/
structure ReportUIState where
  statusText : String
  statusClasses : List String
  form : ReportForm
  request : Option (String × JsValue)

/-- The `#form-report` submit handler. `defaults` are the HTML default
values the form returns to on `formReport.reset()`; `form` is the field
state at submit time. The handler always builds the payload and sends it
to `/api/report`; then, depending on the fetch outcome: a rejected fetch
or an unparseable body lands in the `catch` branch (note
`response.json()` is awaited before `response.ok` is tested); a parsed
body with `!response.ok` shows the server error; otherwise it shows the
success message, resets the form and re-checks `#temporary`. -/
def handleReport (defaults form : ReportForm)
    (outcome : FetchOutcome ReportResponse) : ReportUIState :=
  let request := some ("/api/report", buildPayload form)
  match outcome with
  | .reject =>
    { statusText := "Network error submitting hazard."
      statusClasses := ["status", "error"], form := form, request := request }
  | .resolve _ none =>
    { statusText := "Network error submitting hazard."
      statusClasses := ["status", "error"], form := form, request := request }
  | .resolve ok (some data) =>
    if !ok then
      { statusText := "Error: " ++ jsOrString data.error "Failed to submit"
        statusClasses := ["status", "error"], form := form, request := request }
    else
      { statusText := "Thank you! Your report has been saved and will help train the model."
        statusClasses := ["status", "success"]
        form := { defaults with temporary := true }, request := request }

/-! ## Recent hazards form (`#form-recent` submit handler) -/

/-- One inbound hazard record from `GET /api/hazards`. `accessibility` is
interpolated into a template literal, so it is modelled by the string it
renders as; `description` is optional. -/
structure HazardRecord where
  day : String
  timestamp : String
  location_name : String
  hazard_type : String
  accessibility : String
  user_type : String
  description : Option String
deriving DecidableEq, Repr

/-- The response body of `GET /api/hazards`: the handler reads only the
optional `hazards` array. -/
structure RecentResponse where
  hazards : Option (List HazardRecord)
deriving DecidableEq, Repr

/-- The `innerHTML` string the handler assembles for one hazard record's
list item. -/
def renderHazard (h : HazardRecord) : String :=
  "<span class=\"pill\"><span class=\"dot\"></span>" ++ h.day ++ " • " ++
    h.timestamp ++ "</span><br>" ++
  "<strong>" ++ h.location_name ++ "</strong> – " ++ h.hazard_type ++ " " ++
  "(accessibility: " ++ h.accessibility ++ "/5, user: " ++ h.user_type ++ ")" ++
  (match h.description with
    | some d => "<br><em>" ++ d ++ "</em>"
    | none => "")

/-- Final content of the `#hazard-results` region: either plain text
(`textContent`) or a `ul.results-list` whose entries are the list items'
`innerHTML` strings. -/
inductive RecentResults
  | text (s : String)
  | list (items : List String)
deriving DecidableEq, Repr

/-- Percent-encoding hex digit (uppercase, as `encodeURIComponent`). -/
def hexDigit (n : Nat) : Char :=
  if n < 10 then Char.ofNat ('0'.toNat + n) else Char.ofNat ('A'.toNat + (n - 10))

/-- `%XY` escape for one byte. -/
def percentByte (b : Nat) : String :=
  "%" ++ String.singleton (hexDigit (b / 16)) ++ String.singleton (hexDigit (b % 16))

/-- UTF-8 bytes of a code point, as `encodeURIComponent` would emit. -/
def utf8Bytes (c : Char) : List Nat :=
  let n := c.toNat
  if n < 0x80 then [n]
  else if n < 0x800 then [0xC0 + n / 64, 0x80 + n % 64]
  else if n < 0x10000 then [0xE0 + n / 4096, 0x80 + (n / 64) % 64, 0x80 + n % 64]
  else [0xF0 + n / 262144, 0x80 + (n / 4096) % 64, 0x80 + (n / 64) % 64, 0x80 + n % 64]

/-- JavaScript `encodeURIComponent`: characters outside the unreserved set
`A-Z a-z 0-9 - _ . ! ~ * ( )` and the single quote are percent-encoded
byte by byte. -/
def encodeURIComponent (s : String) : String :=
  s.data.foldl
    (fun acc c =>
      acc ++
        (if c.isAlphanum ∨ c ∈ ['-', '_', '.', '!', '~', '*', '\'', '(', ')'] then
          String.singleton c
        else
          String.join ((utf8Bytes c).map percentByte)))
    ""

/-- The DOM state the recent-hazards submit handler leaves behind: the
`#hazard-results` content and the GET request URL, if one was issued. -/
structure RecentUIState where
  results : RecentResults
  request : Option String
deriving DecidableEq, Repr

/-- The `#form-recent` submit handler. `locationRaw` is the value of
`#check-location` at submit time. An empty trimmed location shows the
prompt and returns without fetching. Otherwise the handler fetches
`/api/hazards?location=` with the encoded location; a rejected fetch or
unparseable body shows the fetch-error text; a body whose `hazards` array
is present and non-empty renders one list item per record; anything else
shows the no-hazards text. -/
def handleRecent (locationRaw : String)
    (outcome : FetchOutcome RecentResponse) : RecentUIState :=
  let location := jsTrim locationRaw
  if location = "" then
    { results := .text "Please enter a location.", request := none }
  else
    { request := some ("/api/hazards?location=" ++ encodeURIComponent location)
      results :=
        match outcome with
        | .reject => .text "Error fetching hazards."
        | .resolve _ none => .text "Error fetching hazards."
        | .resolve _ (some data) =>
          match data.hazards with
          | some hs =>
            if hs.length > 0 then .list (hs.map renderHazard)
            else .text "No recent hazards for this location."
          | none => .text "No recent hazards for this location." }


/-! ## Shared lemmas -/

/-- The network-error text never coincides with a server-error text, which
always starts with `"Error: "`. -/
theorem netErr_ne_serverErr (x : String) :
    "Network error submitting hazard." ≠ "Error: " ++ x := by
  intro h
  have h2 : ("Network error submitting hazard.").data = ("Error: ").data ++ x.data :=
    congrArg String.data h
  have hN : ("Network error submitting hazard.").data
      = 'N' :: ("etwork error submitting hazard.").data := by decide
  have hE : ("Error: ").data = 'E' :: ("rror: ").data := by decide
  rw [hN, hE, List.cons_append] at h2
  injection h2 with h3 _
  exact absurd h3 (by decide)

/-- Each rendered list item contains the record's day string. -/
theorem renderHazard_contains_day (h : HazardRecord) :
    strContains (renderHazard h) h.day := by
  unfold renderHazard
  iterate 14 apply strContains_right
  exact strContains_left _ (strContains_refl _)

/-- Each rendered list item contains the record's timestamp string. -/
theorem renderHazard_contains_timestamp (h : HazardRecord) :
    strContains (renderHazard h) h.timestamp := by
  unfold renderHazard
  iterate 12 apply strContains_right
  exact strContains_left _ (strContains_refl _)

/-- Each rendered list item contains the record's location name. -/
theorem renderHazard_contains_location (h : HazardRecord) :
    strContains (renderHazard h) h.location_name := by
  unfold renderHazard
  iterate 9 apply strContains_right
  exact strContains_left _ (strContains_refl _)

/-- Each rendered list item contains the record's hazard type. -/
theorem renderHazard_contains_type (h : HazardRecord) :
    strContains (renderHazard h) h.hazard_type := by
  unfold renderHazard
  iterate 7 apply strContains_right
  exact strContains_left _ (strContains_refl _)

/-- Each rendered list item contains the record's accessibility value. -/
theorem renderHazard_contains_accessibility (h : HazardRecord) :
    strContains (renderHazard h) h.accessibility := by
  unfold renderHazard
  iterate 4 apply strContains_right
  exact strContains_left _ (strContains_refl _)

/-- Each rendered list item contains the record's user type. -/
theorem renderHazard_contains_user (h : HazardRecord) :
    strContains (renderHazard h) h.user_type := by
  unfold renderHazard
  iterate 2 apply strContains_right
  exact strContains_left _ (strContains_refl _)

/-- When a description is present, the rendered list item contains it. -/
theorem renderHazard_contains_description (h : HazardRecord) (d : String)
    (hd : h.description = some d) : strContains (renderHazard h) d := by
  unfold renderHazard
  rw [hd]
  exact strContains_left _ (strContains_right _ (strContains_left _ (strContains_refl _)))

/-- Sample HTML default values for the report form fields. -/
def sampleDefaults : ReportForm :=
  { location_name := "", hazard_type := "", accessibility := "3"
    user_type := "pedestrian", temporary := true, description := "" }

/-- Sample field state of the report form at submit time. -/
def sampleForm : ReportForm :=
  { location_name := "Elm St", hazard_type := "pothole", accessibility := "2"
    user_type := "wheelchair", temporary := false, description := "big hole" }

/-- The single hazard record of the spec's mocked `GET /api/hazards`
response for "Elm St". -/
def elmRecord : HazardRecord :=
  { day := "Mon", timestamp := "10:00", location_name := "Elm St"
    hazard_type := "pothole", accessibility := "3", user_type := "pedestrian"
    description := none }

/-! ## Claims -/

/-- C1: clicking a trigger button whose `data-section` attribute is one of
the three panel names leaves exactly one button with the `active` class
(the clicked one) and exactly one panel with the `active` class (the one
named by the clicked button's `data-section`). -/
theorem C1_panel_switcher (n : Nat) (dataSection : Fin n → String)
    (s : SwitcherState n) (clicked : Fin n) (p : Panel)
    (hp : dataSection clicked = panelName p) :
    (∀ b, (actionButtonClick n dataSection s clicked).btnActive b = true ↔
      b = clicked) ∧
    (∀ q, (actionButtonClick n dataSection s clicked).panelActive q = true ↔
      q = p) := by
  constructor
  · intro b
    simp [actionButtonClick]
  · intro q
    simp only [actionButtonClick, hp, beq_iff_eq]
    exact ⟨fun h => panelName_inj q p h, fun h => by rw [h]⟩

/-- Witness for C1 at a concrete input: three buttons tagged with the three
panel names, clicking the first. -/
theorem C1_panel_switcher_witness :
    (!["report", "recent", "predict"] : Fin 3 → String) 0 = panelName Panel.report ∧
    ((∀ b, (actionButtonClick 3 !["report", "recent", "predict"]
        ⟨fun _ => false, fun _ => false⟩ 0).btnActive b = true ↔ b = 0) ∧
     (∀ q, (actionButtonClick 3 !["report", "recent", "predict"]
        ⟨fun _ => false, fun _ => false⟩ 0).panelActive q = true ↔
        q = Panel.report)) :=
  ⟨by decide,
   C1_panel_switcher 3 !["report", "recent", "predict"]
     ⟨fun _ => false, fun _ => false⟩ 0 Panel.report (by decide)⟩

/-- C10: clicking a trigger button whose `data-section` attribute matches
none of the three panel names removes the `active` class from all three
panels while still marking the clicked button as the sole active button,
so no panel is visible. -/
theorem C10_unknown_target (n : Nat) (dataSection : Fin n → String)
    (s : SwitcherState n) (clicked : Fin n)
    (hne : ∀ q : Panel, panelName q ≠ dataSection clicked) :
    (∀ q, (actionButtonClick n dataSection s clicked).panelActive q = false) ∧
    (∀ b, (actionButtonClick n dataSection s clicked).btnActive b = true ↔
      b = clicked) := by
  constructor
  · intro q
    simp [actionButtonClick, hne q]
  · intro b
    simp [actionButtonClick]

/-- Witness for C10 at a concrete input: a single button tagged with the
unknown name "settings". -/
theorem C10_unknown_target_witness :
    (∀ q : Panel, panelName q ≠ (fun _ : Fin 1 => "settings") 0) ∧
    ((∀ q, (actionButtonClick 1 (fun _ => "settings")
        ⟨fun _ => true, fun _ => true⟩ 0).panelActive q = false) ∧
     (∀ b, (actionButtonClick 1 (fun _ => "settings")
        ⟨fun _ => true, fun _ => true⟩ 0).btnActive b = true ↔ b = 0)) :=
  ⟨by decide,
   C10_unknown_target 1 (fun _ => "settings") ⟨fun _ => true, fun _ => true⟩ 0
     (by decide)⟩

/-- C2 counterexample: the claim says the error message uses the response's
`error` field whenever that field is present, but with `error` present and
equal to the empty string the handler shows the generic message rather
than the mandated `"Error: "`, because `data.error || "Failed to submit"`
tests truthiness, not presence. -/
theorem C2_counterexample :
    (handleReport sampleDefaults sampleForm
        (.resolve false (some ⟨some ""⟩))).statusText ≠ "Error: " ++ "" := by
  decide

/-- C2 (amended): on a resolved response with a non-ok status and a
parseable body, if the `error` field is present and non-empty the status
text is `"Error: "` followed by that field — in particular
`{error: "bad input"}` yields `"Error: bad input"` — and if the field is
absent or equal to the empty string the generic `"Failed to submit"`
message is used instead. -/
theorem C2_server_error (defaults form : ReportForm) (data : ReportResponse) :
    (∀ s, data.error = some s → s ≠ "" →
      (handleReport defaults form (.resolve false (some data))).statusText =
        "Error: " ++ s) ∧
    (data.error = none ∨ data.error = some "" →
      (handleReport defaults form (.resolve false (some data))).statusText =
        "Error: " ++ "Failed to submit") := by
  constructor
  · intro s hs hne
    simp [handleReport, hs, jsOrString, hne]
  · rintro (h | h) <;> simp [handleReport, h, jsOrString]

/-- Witness for C2 at concrete inputs: `{error: "bad input"}` (the spec's
mocked 4xx body) takes the field branch, and `{error: ""}` takes the
generic branch. -/
theorem C2_server_error_witness :
    ((⟨some "bad input"⟩ : ReportResponse).error = some "bad input" ∧
      "bad input" ≠ "" ∧
      (handleReport sampleDefaults sampleForm
          (.resolve false (some ⟨some "bad input"⟩))).statusText =
        "Error: " ++ "bad input") ∧
    ((⟨some ""⟩ : ReportResponse).error = some "" ∧
      (handleReport sampleDefaults sampleForm
          (.resolve false (some ⟨some ""⟩))).statusText =
        "Error: " ++ "Failed to submit") :=
  ⟨⟨rfl, by decide,
    (C2_server_error sampleDefaults sampleForm ⟨some "bad input"⟩).1 "bad input"
      rfl (by decide)⟩,
   ⟨rfl,
    (C2_server_error sampleDefaults sampleForm ⟨some ""⟩).2 (Or.inr rfl)⟩⟩

/-- C3: on a resolved response with an ok status and a parseable body, the
handler shows the success message with the success class, resets the form
fields to their defaults, and sets the `temporary` checkbox back to
checked. -/
theorem C3_success (defaults form : ReportForm) (data : ReportResponse) :
    (handleReport defaults form (.resolve true (some data))).statusText =
      "Thank you! Your report has been saved and will help train the model." ∧
    (handleReport defaults form (.resolve true (some data))).statusClasses =
      ["status", "success"] ∧
    (handleReport defaults form (.resolve true (some data))).form =
      { defaults with temporary := true } ∧
    (handleReport defaults form (.resolve true (some data))).form.temporary =
      true := by
  refine ⟨rfl, rfl, rfl, rfl⟩

/-- C4: when the fetch rejects, the status text is the generic
network-error message, and that message never equals the server-error
message shown for any HTTP-not-ok response. -/
theorem C4_transport_failure (defaults form : ReportForm)
    (data : ReportResponse) :
    (handleReport defaults form .reject).statusText =
      "Network error submitting hazard." ∧
    (handleReport defaults form .reject).statusText ≠
      (handleReport defaults form (.resolve false (some data))).statusText := by
  exact ⟨rfl, netErr_ne_serverErr _⟩

/-- C9: when the fetch resolves (with any status) but the body is not valid
JSON, the handler lands in the catch branch: the network-error text with
the error class is shown, the form is untouched, and neither the success
message nor any server-error message appears. -/
theorem C9_unparseable_body (defaults form : ReportForm) (ok : Bool) :
    (handleReport defaults form (.resolve ok none)).statusText =
      "Network error submitting hazard." ∧
    (handleReport defaults form (.resolve ok none)).statusClasses =
      ["status", "error"] ∧
    (handleReport defaults form (.resolve ok none)).form = form ∧
    (handleReport defaults form (.resolve ok none)).statusText ≠
      "Thank you! Your report has been saved and will help train the model." ∧
    ∀ e : Option String,
      (handleReport defaults form (.resolve ok none)).statusText ≠
        "Error: " ++ jsOrString e "Failed to submit" := by
  refine ⟨rfl, rfl, rfl, ?_, fun e => netErr_ne_serverErr _⟩
  show "Network error submitting hazard." ≠ _
  decide

/-- C8: every submission sends a POST request to `/api/report` whose JSON
body has exactly the six keys `location_name`, `hazard_type`,
`accessibility`, `user_type`, `temporary`, `description`, where
`temporary` is the checkbox's boolean checked state and the other five are
strings taken from the current field values. -/
theorem C8_payload_shape (defaults form : ReportForm)
    (outcome : FetchOutcome ReportResponse) :
    (handleReport defaults form outcome).request =
      some ("/api/report", buildPayload form) ∧
    (buildPayload form).objKeys =
      ["location_name", "hazard_type", "accessibility", "user_type",
       "temporary", "description"] ∧
    (buildPayload form).objGet "location_name" =
      some (.str (jsTrim form.location_name)) ∧
    (buildPayload form).objGet "hazard_type" =
      some (.str (jsTrim form.hazard_type)) ∧
    (buildPayload form).objGet "accessibility" =
      some (.str form.accessibility) ∧
    (buildPayload form).objGet "user_type" = some (.str form.user_type) ∧
    (buildPayload form).objGet "temporary" = some (.bool form.temporary) ∧
    (buildPayload form).objGet "description" =
      some (.str (jsTrim form.description)) := by
  refine ⟨?_, rfl, rfl, rfl, rfl, rfl, rfl, rfl⟩
  cases outcome with
  | reject => rfl
  | resolve ok body =>
    cases body with
    | none => rfl
    | some data => cases ok <;> rfl

/-- C5: submitting the recent-hazards form with a location that trims to
the empty string leaves the prompt message in the results region and
issues no HTTP request. -/
theorem C5_empty_location (loc : String) (h : jsTrim loc = "")
    (outcome : FetchOutcome RecentResponse) :
    (handleRecent loc outcome).results = .text "Please enter a location." ∧
    (handleRecent loc outcome).request = none := by
  simp [handleRecent, h]

/-- Witness for C5 at a concrete input: a whitespace-only location. -/
theorem C5_empty_location_witness :
    jsTrim "   " = "" ∧
    ((handleRecent "   " (.reject : FetchOutcome RecentResponse)).results =
        .text "Please enter a location." ∧
      (handleRecent "   " (.reject : FetchOutcome RecentResponse)).request =
        none) :=
  ⟨by decide, C5_empty_location "   " (by decide) .reject⟩

/-- C6: on a response whose parsed body has a non-empty `hazards` array,
the handler renders exactly one list item per record, and each item
contains the record's day, timestamp, location name, hazard type,
accessibility value, user type, and description when present. -/
theorem C6_render (loc : String) (hloc : jsTrim loc ≠ "") (ok : Bool)
    (hs : List HazardRecord) (hne : hs ≠ []) :
    (handleRecent loc (.resolve ok (some ⟨some hs⟩))).results =
      .list (hs.map renderHazard) ∧
    (hs.map renderHazard).length = hs.length ∧
    ∀ h ∈ hs,
      strContains (renderHazard h) h.day ∧
      strContains (renderHazard h) h.timestamp ∧
      strContains (renderHazard h) h.location_name ∧
      strContains (renderHazard h) h.hazard_type ∧
      strContains (renderHazard h) h.accessibility ∧
      strContains (renderHazard h) h.user_type ∧
      ∀ d, h.description = some d → strContains (renderHazard h) d := by
  refine ⟨?_, by simp, ?_⟩
  · simp [handleRecent, hloc, List.length_pos.mpr hne]
  · intro h _
    exact ⟨renderHazard_contains_day h, renderHazard_contains_timestamp h,
      renderHazard_contains_location h, renderHazard_contains_type h,
      renderHazard_contains_accessibility h, renderHazard_contains_user h,
      fun d hd => renderHazard_contains_description h d hd⟩

/-- Witness for C6 at the spec's concrete input: location "Elm St" with the
mocked single-record response, rendering exactly one list item that
contains "Elm St" and "pothole". -/
theorem C6_render_witness :
    jsTrim "Elm St" ≠ "" ∧ ([elmRecord] : List HazardRecord) ≠ [] ∧
    ((handleRecent "Elm St" (.resolve true (some ⟨some [elmRecord]⟩))).results =
        .list ([elmRecord].map renderHazard) ∧
      ([elmRecord].map renderHazard).length = [elmRecord].length ∧
      ∀ h ∈ [elmRecord],
        strContains (renderHazard h) h.day ∧
        strContains (renderHazard h) h.timestamp ∧
        strContains (renderHazard h) h.location_name ∧
        strContains (renderHazard h) h.hazard_type ∧
        strContains (renderHazard h) h.accessibility ∧
        strContains (renderHazard h) h.user_type ∧
        ∀ d, h.description = some d → strContains (renderHazard h) d) :=
  ⟨by decide, by decide,
   C6_render "Elm St" (by decide) true [elmRecord] (by decide)⟩

/-- C7: on a response whose parsed body has no `hazards` field or an empty
`hazards` array, the results region shows the no-hazards text and no list
items are rendered. -/
theorem C7_no_hazards (loc : String) (hloc : jsTrim loc ≠ "") (ok : Bool)
    (data : RecentResponse)
    (hh : data.hazards = none ∨ data.hazards = some []) :
    (handleRecent loc (.resolve ok (some data))).results =
      .text "No recent hazards for this location." := by
  rcases hh with h | h <;> simp [handleRecent, hloc, h]

/-- Witness for C7 at a concrete input: location "Elm St" with a body that
lacks the `hazards` field. -/
theorem C7_no_hazards_witness :
    jsTrim "Elm St" ≠ "" ∧
    ((⟨none⟩ : RecentResponse).hazards = none ∨
      (⟨none⟩ : RecentResponse).hazards = some []) ∧
    (handleRecent "Elm St" (.resolve true (some ⟨none⟩))).results =
      .text "No recent hazards for this location." :=
  ⟨by decide, Or.inl rfl,
   C7_no_hazards "Elm St" (by decide) true ⟨none⟩ (Or.inl rfl)⟩
